import Mathlib

set_option maxRecDepth 4000

/-!
Shallow embedding of the composition wizard and fan-out delivery engine of the
broadcasting bot (src/bot.py) together with proofs of the claims made by the
specification.

Strings are modelled as Lean `String` (lists of Unicode code points, matching
the per-code-point `len` and slicing of Python).  Python helpers used by the source
(`str.strip`, `'|' in s`, `s.split('|', 1)`, `s[:30]`, truthiness of an
optional string) are embedded as explicit Lean functions below.
-/

namespace Cybot

/-- Python `str.strip()`: drop whitespace from both ends of the string. -/
def pyStrip (s : String) : String :=
  ⟨((s.data.dropWhile Char.isWhitespace).reverse.dropWhile Char.isWhitespace).reverse⟩

/-- Python `c in s` for a single character `c`. -/
def pyIn (c : Char) (s : String) : Bool :=
  decide (c ∈ s.data)

/-- Split a character list into the part before the first occurrence of `c`
and the part after it. -/
def splitOnce (c : Char) : List Char → List Char × List Char
  | [] => ([], [])
  | x :: xs =>
    if x = c then ([], xs)
    else
      let p := splitOnce c xs
      (x :: p.1, p.2)

/-- Python `s.split(c, 1)`: two parts when the separator occurs, else the
whole string as a single part. -/
def splitPy (c : Char) (s : String) : List String :=
  if pyIn c s then
    let p := splitOnce c s.data
    [⟨p.1⟩, ⟨p.2⟩]
  else [s]

/-- Python `s[:n]` on a string. -/
def strTake (n : Nat) (s : String) : String :=
  ⟨s.data.take n⟩

/-- Python `s.startswith(pre)`. -/
def startsWithPy (s pre : String) : Bool :=
  pre.data.isPrefixOf s.data

/-- Python truthiness of an optional string field: `None` and `""` are falsy. -/
def pyTruthyStr : Option String → Bool
  | none => false
  | some s => !(s == "")

/-- The post dictionary that `new_post` stores under the post key of
`context.user_data`:
image file id, title, description, url and button text, all optional. -/
structure Post where
  image : Option Nat
  title : Option String
  description : Option String
  url : Option String
  button_text : Option String
deriving DecidableEq, Repr

/-- The conversation states `range(6)` of `bot.py`. -/
def SELECTING_ACTION : Int := 0

def UPLOADING_IMAGE : Int := 1

def ENTERING_TITLE : Int := 2

def ENTERING_DESCRIPTION : Int := 3

def ENTERING_URL : Int := 4

def PREVIEW : Int := 5

/-- `telegram.ext.ConversationHandler.END`. -/
def END : Int := -1

/-- `new_post`: initialize a fresh empty draft and enter the image step. -/
def new_post : Int × Post :=
  (UPLOADING_IMAGE,
   { image := none, title := none, description := none, url := none, button_text := none })

/-- `handle_image`: the handler is registered under `filters.PHOTO`, so a
photo is present; store its file id and move on to the title step. -/
def handle_image (photo : Nat) (post : Post) : Int × Post :=
  (ENTERING_TITLE, { post with image := some photo })

/-- `skip_image`: clear the image and move on to the title step. -/
def skip_image (post : Post) : Int × Post :=
  (ENTERING_TITLE, { post with image := none })

/-- `handle_title`: strip the input; reject (self-loop) when longer than 200
characters, otherwise store it and advance to the description step. -/
def handle_title (input : String) (post : Post) : Int × Post :=
  let title := pyStrip input
  if title.length > 200 then (ENTERING_TITLE, post)
  else (ENTERING_DESCRIPTION, { post with title := some title })

/-- `handle_description`: strip the input; reject (self-loop) when longer than
1000 characters, otherwise store it and advance to the url step. -/
def handle_description (input : String) (post : Post) : Int × Post :=
  let description := pyStrip input
  if description.length > 1000 then (ENTERING_DESCRIPTION, post)
  else (ENTERING_URL, { post with description := some description })

/-- `skip_description`: clear the description and advance to the url step. -/
def skip_description (post : Post) : Int × Post :=
  (ENTERING_URL, { post with description := none })

/-- `handle_url`: strip the input; reject when it has no `|`; split on the
first `|`, strip both parts (the `"Click Here"` default is taken only when the
split produced a single part); reject when the url part has no http(s) scheme;
otherwise store url and button text together and advance to the preview. -/
def handle_url (input : String) (post : Post) : Int × Post :=
  let text := pyStrip input
  if !(pyIn '|' text) then (ENTERING_URL, post)
  else
    let parts := splitPy '|' text
    let url := pyStrip (parts.headD "")
    let button_text := if parts.length > 1 then pyStrip (parts.getD 1 "") else "Click Here"
    if !(startsWithPy url "http://" || startsWithPy url "https://") then (ENTERING_URL, post)
    else (PREVIEW, { post with url := some url, button_text := some button_text })

/-- `skip_url`: clear url and button text together and advance to the preview. -/
def skip_url (post : Post) : Int × Post :=
  (PREVIEW, { post with url := none, button_text := none })

/-- The kinds of handlers registered in the `ConversationHandler` states map. -/
inductive HandlerSig where
  | textMessage
  | photoMessage
  | skipCallback
  | cancelCallback
  | confirmCallback
deriving DecidableEq, Repr

/-- The `states` dictionary of the `ConversationHandler` in `main`. -/
def state_handlers (s : Int) : List HandlerSig :=
  if s = UPLOADING_IMAGE then [.photoMessage, .skipCallback, .cancelCallback]
  else if s = ENTERING_TITLE then [.textMessage, .cancelCallback]
  else if s = ENTERING_DESCRIPTION then [.textMessage, .skipCallback, .cancelCallback]
  else if s = ENTERING_URL then [.textMessage, .skipCallback, .cancelCallback]
  else if s = PREVIEW then [.confirmCallback, .cancelCallback]
  else []

/-- Outcome of a remote call: a value, or a raised exception message. -/
inductive CallResult (α : Type) where
  | ok (val : α)
  | raised (msg : String)
deriving DecidableEq, Repr

/-- Membership status returned by `get_chat_member`. -/
inductive MemberStatus where
  | administrator
  | creator
  | member
  | restricted
  | left
  | kicked
deriving DecidableEq, Repr

/-- One destination of the registry snapshot, together with the behaviour of
the transport for it during this run: the result of the membership query and
the result of a dispatch, should one be attempted. -/
structure Dest where
  chat_id : Int
  title : String
  member : CallResult MemberStatus
  send : CallResult Unit
deriving DecidableEq, Repr

/-- One dispatched message: destination, whether `send_photo` was used
(else `send_message`), and the composed text/caption. -/
structure Dispatch where
  chat_id : Int
  usedPhoto : Bool
  text : String
deriving DecidableEq, Repr

/-- The mutable state of the broadcast loop in `confirm_send`, extended with
the trace of membership queries and dispatch attempts performed. -/
structure BroadcastState where
  success_count : Nat
  failed_count : Nat
  failed_chats : List String
  queries : List Int
  dispatches : List Dispatch
deriving DecidableEq, Repr

/-- The `message_text` composed in the broadcast loop: an emphasized title
line when the title is truthy, then the description when truthy. -/
def build_message (post : Post) : String :=
  (if pyTruthyStr post.title then "<b>" ++ post.title.getD "" ++ "</b>\n\n" else "") ++
  (if pyTruthyStr post.description then post.description.getD "" else "")

/-- Failure entry for an ineligible destination. -/
def notAdminEntry (d : Dest) : String :=
  d.title ++ " (not admin)"

/-- Failure entry for a raised transport error: `str(e)[:30]` excerpt. -/
def errEntry (d : Dest) (e : String) : String :=
  d.title ++ " (" ++ strTake 30 e ++ ")"

/-- One iteration of the broadcast loop: query membership; on a raised query
record a failure with a 30-character excerpt; when the status is not
administrator/creator record a "not admin" failure and do not dispatch;
otherwise dispatch (photo or text) and count a success, or record an excerpt
failure when the dispatch raises. -/
def processDest (post : Post) (st : BroadcastState) (d : Dest) : BroadcastState :=
  match d.member with
  | .raised e =>
      ⟨st.success_count, st.failed_count + 1, st.failed_chats ++ [errEntry d e],
       st.queries ++ [d.chat_id], st.dispatches⟩
  | .ok status =>
      if status == MemberStatus.administrator || status == MemberStatus.creator then
        match d.send with
        | .ok _ =>
            ⟨st.success_count + 1, st.failed_count, st.failed_chats,
             st.queries ++ [d.chat_id],
             st.dispatches ++ [⟨d.chat_id, post.image.isSome, build_message post⟩]⟩
        | .raised e =>
            ⟨st.success_count, st.failed_count + 1, st.failed_chats ++ [errEntry d e],
             st.queries ++ [d.chat_id],
             st.dispatches ++ [⟨d.chat_id, post.image.isSome, build_message post⟩]⟩
      else
        ⟨st.success_count, st.failed_count + 1, st.failed_chats ++ [notAdminEntry d],
         st.queries ++ [d.chat_id], st.dispatches⟩

/-- The `for chat_id, chat_info in chats.items()` loop of `confirm_send`. -/
def broadcast_loop (post : Post) (chats : List Dest) : BroadcastState :=
  chats.foldl (processDest post) ⟨0, 0, [], [], []⟩

/-- What `confirm_send` reports back: either the "No Chats Available" notice,
or the broadcast-complete report with counts, total and failed entries. -/
inductive Outcome where
  | noDestinations
  | report (success failed total : Nat) (failedChats : List String)
deriving DecidableEq, Repr

/-- Result of `confirm_send`: the rendered outcome, the operator session
store after the call (the post entry of `user_data`, `none` once cleared), the returned
conversation state, and the trace of queries and dispatches performed. -/
structure SendResult where
  outcome : Outcome
  user_data : Option Post
  conv_state : Int
  queries : List Int
  dispatches : List Dispatch
deriving DecidableEq, Repr

/-- `confirm_send`: with an empty snapshot, reply "No Chats Available" and end
the conversation (the session store is left as is); otherwise run the
broadcast loop over the snapshot, report the counts, clear the session store
and end the conversation. -/
def confirm_send (post : Post) (chats : List Dest) : SendResult :=
  if chats.isEmpty then
    { outcome := .noDestinations, user_data := some post, conv_state := END,
      queries := [], dispatches := [] }
  else
    let st := broadcast_loop post chats
    { outcome := .report st.success_count st.failed_count chats.length st.failed_chats,
      user_data := none, conv_state := END,
      queries := st.queries, dispatches := st.dispatches }

/-- The Draft invariant of the spec: button text present iff url present. -/
def draft_inv (p : Post) : Prop :=
  p.button_text.isSome = p.url.isSome

/-- A concrete draft used by concrete evaluations below. -/
def p0 : Post :=
  { image := none, title := some "Hello", description := none, url := none, button_text := none }

/-- A draft whose title step was exited with a whitespace-only input. -/
def pEmptyTitle : Post :=
  { image := none, title := some "", description := none, url := none, button_text := none }

/-- A draft with an empty title but a description. -/
def pDescTitle : Post :=
  { image := none, title := some "", description := some "details", url := none,
    button_text := none }

/-- The initial accumulator of the broadcast loop. -/
def st0 : BroadcastState := ⟨0, 0, [], [], []⟩

/-- A destination where the agent is administrator and the dispatch succeeds. -/
def dOk : Dest :=
  { chat_id := 7, title := "General", member := .ok .administrator, send := .ok () }

/-- A destination where the agent is an ordinary member. -/
def dNoAdmin : Dest :=
  { chat_id := 8, title := "Other", member := .ok .member, send := .ok () }

/-- A destination whose membership query raises. -/
def dErr : Dest :=
  { chat_id := 9, title := "Bad",
    member := .raised "Forbidden: bot was kicked from the group chat", send := .ok () }

/-- A destination where the agent is creator but the dispatch raises. -/
def dSendErr : Dest :=
  { chat_id := 10, title := "Flaky", member := .ok .creator, send := .raised "Timed out" }

/-- A 200-character title input. -/
def a200 : String := ⟨List.replicate 200 'a'⟩

/-- A 201-character title input. -/
def a201 : String := ⟨List.replicate 201 'a'⟩

end Cybot

namespace Cybot

/-! ### Helper lemmas -/

/-- A character that does not satisfy the predicate survives `dropWhile`. -/
theorem mem_dropWhile_of_mem {p : Char → Bool} {x : Char} (hx : p x = false) :
    ∀ (l : List Char), x ∈ l → x ∈ l.dropWhile p := by
  intro l
  induction l with
  | nil => intro h; exact absurd h (List.not_mem_nil x)
  | cons a t ih =>
    intro h
    by_cases ha : p a = true
    · rw [List.dropWhile_cons_of_pos ha]
      rcases List.mem_cons.mp h with h1 | h1
      · subst h1; rw [hx] at ha; exact absurd ha (by simp)
      · exact ih h1
    · rw [List.dropWhile_cons_of_neg ha]
      exact h

/-- Stripping surrounding whitespace does not change whether a non-whitespace
character occurs in the string. -/
theorem pyIn_pyStrip {c : Char} (hc : c.isWhitespace = false) (s : String) :
    pyIn c (pyStrip s) = pyIn c s := by
  unfold pyIn pyStrip
  apply decide_eq_decide.mpr
  constructor
  · intro h
    have h1 := List.mem_reverse.mp h
    have h2 := List.dropWhile_subset _ h1
    have h3 := List.mem_reverse.mp h2
    exact List.dropWhile_subset _ h3
  · intro h
    apply List.mem_reverse.mpr
    apply mem_dropWhile_of_mem hc
    apply List.mem_reverse.mpr
    exact mem_dropWhile_of_mem hc _ h

/-- Stripping a string of nothing but whitespace yields the empty string. -/
theorem pyStrip_of_all_whitespace {s : String}
    (h : s.data.all Char.isWhitespace = true) : pyStrip s = "" := by
  unfold pyStrip
  have h1 : s.data.dropWhile Char.isWhitespace = [] :=
    List.dropWhile_eq_nil_iff.mpr (fun x hx => List.all_eq_true.mp h x hx)
  rw [h1]
  rfl

/-- The excerpt stored for a raised error is at most `n` characters long. -/
theorem strTake_length_le (n : Nat) (s : String) : (strTake n s).length ≤ n := by
  simp only [strTake, String.length, List.length_take]
  omega

/-- Each loop iteration adds exactly one outcome. -/
theorem processDest_counts (post : Post) (st : BroadcastState) (d : Dest) :
    (processDest post st d).success_count + (processDest post st d).failed_count
      = st.success_count + st.failed_count + 1 := by
  cases hm : d.member with
  | raised e => simp [processDest, hm]; omega
  | ok status =>
    cases hs : d.send with
    | ok v => simp only [processDest, hm, hs]; split <;> simp <;> omega
    | raised e => simp only [processDest, hm, hs]; split <;> simp <;> omega

/-- Each loop iteration queries exactly its own destination. -/
theorem processDest_queries (post : Post) (st : BroadcastState) (d : Dest) :
    (processDest post st d).queries = st.queries ++ [d.chat_id] := by
  cases hm : d.member with
  | raised e => simp [processDest, hm]
  | ok status =>
    cases hs : d.send with
    | ok v => simp only [processDest, hm, hs]; split <;> simp
    | raised e => simp only [processDest, hm, hs]; split <;> simp

/-- Folding the loop over a destination list adds one outcome per element. -/
theorem loop_counts_general (post : Post) (chats : List Dest) :
    ∀ st : BroadcastState,
      (chats.foldl (processDest post) st).success_count
          + (chats.foldl (processDest post) st).failed_count
        = st.success_count + st.failed_count + chats.length := by
  induction chats with
  | nil => intro st; simp
  | cons d rest ih =>
    intro st
    rw [List.foldl_cons, ih]
    have h := processDest_counts post st d
    simp only [List.length_cons]
    omega

/-- Folding the loop queries every destination of the list, in order. -/
theorem loop_queries_general (post : Post) (chats : List Dest) :
    ∀ st : BroadcastState,
      (chats.foldl (processDest post) st).queries
        = st.queries ++ chats.map Dest.chat_id := by
  induction chats with
  | nil => intro st; simp
  | cons d rest ih =>
    intro st
    rw [List.foldl_cons, ih, processDest_queries]
    simp

/-- Evaluation of one iteration at an ineligible destination. -/
theorem processDest_not_admin_eq (post : Post) (st : BroadcastState) (d : Dest)
    (s : MemberStatus) (hm : d.member = CallResult.ok s)
    (hb : (s == MemberStatus.administrator || s == MemberStatus.creator) = false) :
    processDest post st d
      = ⟨st.success_count, st.failed_count + 1, st.failed_chats ++ [notAdminEntry d],
         st.queries ++ [d.chat_id], st.dispatches⟩ := by
  simp [processDest, hm, hb]

/-- Evaluation of one iteration at an eligible destination whose send succeeds. -/
theorem processDest_admin_send_ok_eq (post : Post) (st : BroadcastState) (d : Dest)
    (s : MemberStatus) (hm : d.member = CallResult.ok s)
    (hb : (s == MemberStatus.administrator || s == MemberStatus.creator) = true)
    (hs : d.send = CallResult.ok ()) :
    processDest post st d
      = ⟨st.success_count + 1, st.failed_count, st.failed_chats,
         st.queries ++ [d.chat_id],
         st.dispatches ++ [⟨d.chat_id, post.image.isSome, build_message post⟩]⟩ := by
  simp [processDest, hm, hb, hs]

/-- Evaluation of one iteration at an eligible destination whose send raises. -/
theorem processDest_admin_send_raised_eq (post : Post) (st : BroadcastState) (d : Dest)
    (s : MemberStatus) (e : String) (hm : d.member = CallResult.ok s)
    (hb : (s == MemberStatus.administrator || s == MemberStatus.creator) = true)
    (hs : d.send = CallResult.raised e) :
    processDest post st d
      = ⟨st.success_count, st.failed_count + 1, st.failed_chats ++ [errEntry d e],
         st.queries ++ [d.chat_id],
         st.dispatches ++ [⟨d.chat_id, post.image.isSome, build_message post⟩]⟩ := by
  simp [processDest, hm, hb, hs]

/-- Evaluation of one iteration when the membership query raises. -/
theorem processDest_member_raised_eq (post : Post) (st : BroadcastState) (d : Dest)
    (e : String) (hm : d.member = CallResult.raised e) :
    processDest post st d
      = ⟨st.success_count, st.failed_count + 1, st.failed_chats ++ [errEntry d e],
         st.queries ++ [d.chat_id], st.dispatches⟩ := by
  simp [processDest, hm]

end Cybot

namespace Cybot

/-! ### Claim theorems -/

/-- Claim C1 (code behaviour at the failing input): in the url step the input
`"https://x.com | "` is accepted and stored with `button_text = some ""` — the
`"Click Here"` default is never taken once the input contains a pipe, because
the bounded split then always yields two parts.  The claim (and the spec)
say the button text defaults to `"Click Here"` here. -/
theorem C1_empty_button_stores_empty_string :
    handle_url "https://x.com | " p0
      = (PREVIEW, { p0 with url := some "https://x.com", button_text := some "" })
      ∧ some "" ≠ some "Click Here" := by
  constructor
  · decide
  · decide

/-- Claim C2 counterexample: invoking the broadcast from Preview on an empty
registry snapshot ends the session but leaves the Draft in the session store,
so the Draft is not cleared on that path. -/
theorem C2_empty_snapshot_keeps_draft :
    (confirm_send p0 []).conv_state = END ∧ (confirm_send p0 []).user_data ≠ none := by
  decide

/-- Claim C2 (amended): every invocation of the broadcast from Preview ends
the session; with a non-empty snapshot the Draft is cleared, while with an
empty snapshot the Draft is left in the session store. -/
theorem C2_draft_cleared (post : Post) (chats : List Dest) :
    (confirm_send post chats).conv_state = END ∧
    (chats ≠ [] → (confirm_send post chats).user_data = none) ∧
    (chats = [] → (confirm_send post chats).user_data = some post) := by
  cases chats with
  | nil => exact ⟨rfl, fun h => absurd rfl h, fun _ => rfl⟩
  | cons d rest =>
    refine ⟨rfl, fun _ => rfl, fun h => absurd h (by simp)⟩

/-- Claim C2 witness: the amended statement at concrete inputs. -/
theorem C2_draft_cleared_witness :
    (confirm_send p0 [dOk]).user_data = none ∧
    (confirm_send p0 []).user_data = some p0 :=
  ⟨(C2_draft_cleared p0 [dOk]).2.1 (by simp), (C2_draft_cleared p0 []).2.2 rfl⟩

/-- Claim C3: over any non-empty registry snapshot the broadcast loop yields
`success + failure = snapshot size`, with no early exit and no retry — each
destination contributes exactly one outcome, whatever its membership and
dispatch results — and `confirm_send` reports exactly these counts with
`total = snapshot size`. -/
theorem C3_fanout_counts (post : Post) (chats : List Dest) (h : chats ≠ []) :
    (broadcast_loop post chats).success_count + (broadcast_loop post chats).failed_count
      = chats.length ∧
    (confirm_send post chats).outcome
      = Outcome.report (broadcast_loop post chats).success_count
          (broadcast_loop post chats).failed_count chats.length
          (broadcast_loop post chats).failed_chats := by
  constructor
  · have hc := loop_counts_general post chats ⟨0, 0, [], [], []⟩
    simpa [broadcast_loop] using hc
  · cases chats with
    | nil => exact absurd rfl h
    | cons d rest => rfl

/-- Claim C3 witness: the counts at a concrete two-destination snapshot. -/
theorem C3_fanout_counts_witness :
    (broadcast_loop p0 [dOk, dNoAdmin]).success_count
      + (broadcast_loop p0 [dOk, dNoAdmin]).failed_count = 2 := by
  have h := (C3_fanout_counts p0 [dOk, dNoAdmin] (by simp)).1
  simpa using h

/-- Claim C4: the Draft invariant (button text present iff url present) holds
for a fresh draft and is preserved by every wizard operation. -/
theorem C4_draft_invariant (photo : Nat) (tIn dIn uIn : String) (p : Post)
    (h : draft_inv p) :
    draft_inv new_post.2 ∧
    draft_inv (handle_image photo p).2 ∧
    draft_inv (skip_image p).2 ∧
    draft_inv (handle_title tIn p).2 ∧
    draft_inv (handle_description dIn p).2 ∧
    draft_inv (skip_description p).2 ∧
    draft_inv (handle_url uIn p).2 ∧
    draft_inv (skip_url p).2 := by
  refine ⟨rfl, h, h, ?_, ?_, h, ?_, rfl⟩
  · unfold handle_title draft_inv
    dsimp only
    split
    · exact h
    · exact h
  · unfold handle_description draft_inv
    dsimp only
    split
    · exact h
    · exact h
  · unfold handle_url draft_inv
    dsimp only
    split
    · exact h
    · split
      · exact h
      · rfl

/-- Claim C4 witness: the invariant after concrete operations on a concrete
draft. -/
theorem C4_draft_invariant_witness :
    draft_inv (skip_url p0).2 ∧ draft_inv (handle_url "https://a.b | Go" p0).2 :=
  ⟨(C4_draft_invariant 5 "t" "d" "https://a.b | Go" p0 rfl).2.2.2.2.2.2.2,
   (C4_draft_invariant 5 "t" "d" "https://a.b | Go" p0 rfl).2.2.2.2.2.2.1⟩

/-- Claim C5: in the title step the input is trimmed; a trimmed length above
200 re-emits the title state with the draft unchanged, a trimmed length of at
most 200 (including exactly 200) stores the trimmed title and advances to the
description step; and the title state registers no skip handler. -/
theorem C5_title_step (input : String) (post : Post) :
    (200 < (pyStrip input).length → handle_title input post = (ENTERING_TITLE, post)) ∧
    ((pyStrip input).length ≤ 200 →
      handle_title input post
        = (ENTERING_DESCRIPTION, { post with title := some (pyStrip input) })) ∧
    HandlerSig.skipCallback ∉ state_handlers ENTERING_TITLE := by
  refine ⟨?_, ?_, by decide⟩
  · intro h
    have hc : (pyStrip input).length > 200 := h
    simp [handle_title, hc]
  · intro h
    have hc : ¬ ((pyStrip input).length > 200) := by omega
    simp [handle_title, hc]

/-- Claim C5 witness: a 200-character title is accepted, a 201-character title
is rejected. -/
theorem C5_title_step_witness :
    handle_title a200 p0
      = (ENTERING_DESCRIPTION, { p0 with title := some (pyStrip a200) }) ∧
    handle_title a201 p0 = (ENTERING_TITLE, p0) :=
  ⟨(C5_title_step a200 p0).2.1 (by decide), (C5_title_step a201 p0).1 (by decide)⟩

/-- Claim C6: a url-step input without a pipe is rejected with the wizard kept
in the url state and the draft unmutated, and an input with a pipe whose url
part lacks an http(s) scheme is likewise rejected with state and draft
unchanged. -/
theorem C6_url_rejections (input : String) (post : Post) :
    (pyIn '|' input = false → handle_url input post = (ENTERING_URL, post)) ∧
    (pyIn '|' input = true →
      startsWithPy (pyStrip ((splitPy '|' (pyStrip input)).headD "")) "http://" = false →
      startsWithPy (pyStrip ((splitPy '|' (pyStrip input)).headD "")) "https://" = false →
      handle_url input post = (ENTERING_URL, post)) := by
  constructor
  · intro h
    have h2 : pyIn '|' (pyStrip input) = false := by
      rw [pyIn_pyStrip (by decide), h]
    simp [handle_url, h2]
  · intro h h1 h2
    have h3 : pyIn '|' (pyStrip input) = true := by
      rw [pyIn_pyStrip (by decide), h]
    unfold handle_url
    dsimp only
    rw [h3, h1, h2]
    simp

/-- Claim C6 witness: a pipe-less input and a scheme-less input are both
rejected. -/
theorem C6_url_rejections_witness :
    handle_url "no pipes here" p0 = (ENTERING_URL, p0) ∧
    handle_url "example.com | Go" p0 = (ENTERING_URL, p0) :=
  ⟨(C6_url_rejections "no pipes here" p0).1 (by decide),
   (C6_url_rejections "example.com | Go" p0).2 (by decide) (by decide) (by decide)⟩

end Cybot

namespace Cybot

/-- Claim C7: a destination whose queried status is neither administrator nor
creator yields exactly one failure entry with reason "not admin" and no
dispatch attempt, and the loop continues: a two-destination snapshot with one
such destination followed by one successful destination gives success 1,
failure 1, with exactly that failure entry. -/
theorem C7_not_admin (post : Post) (st : BroadcastState) (d d2 : Dest)
    (s : MemberStatus) (hm : d.member = CallResult.ok s)
    (h1 : s ≠ MemberStatus.administrator) (h2 : s ≠ MemberStatus.creator)
    (h2m : d2.member = CallResult.ok MemberStatus.administrator)
    (h2s : d2.send = CallResult.ok ()) :
    processDest post st d
      = ⟨st.success_count, st.failed_count + 1,
         st.failed_chats ++ [d.title ++ " (not admin)"],
         st.queries ++ [d.chat_id], st.dispatches⟩ ∧
    (broadcast_loop post [d, d2]).success_count = 1 ∧
    (broadcast_loop post [d, d2]).failed_count = 1 ∧
    (broadcast_loop post [d, d2]).failed_chats = [d.title ++ " (not admin)"] := by
  have hb : (s == MemberStatus.administrator || s == MemberStatus.creator) = false := by
    cases s <;> simp_all
  have hb2 : ((MemberStatus.administrator == MemberStatus.administrator)
      || (MemberStatus.administrator == MemberStatus.creator)) = true := by decide
  have e1 : processDest post ⟨0, 0, [], [], []⟩ d
      = ⟨0, 1, [notAdminEntry d], [d.chat_id], []⟩ := by
    rw [processDest_not_admin_eq post ⟨0, 0, [], [], []⟩ d s hm hb]; rfl
  have e2 : processDest post ⟨0, 1, [notAdminEntry d], [d.chat_id], []⟩ d2
      = ⟨1, 1, [notAdminEntry d], [d.chat_id, d2.chat_id],
         [⟨d2.chat_id, post.image.isSome, build_message post⟩]⟩ := by
    rw [processDest_admin_send_ok_eq post ⟨0, 1, [notAdminEntry d], [d.chat_id], []⟩
      d2 MemberStatus.administrator h2m hb2 h2s]; rfl
  have hbl : broadcast_loop post [d, d2]
      = processDest post (processDest post ⟨0, 0, [], [], []⟩ d) d2 := rfl
  refine ⟨processDest_not_admin_eq post st d s hm hb, ?_, ?_, ?_⟩ <;>
    (rw [hbl, e1, e2]; try rfl)

/-- Claim C7 witness: the scenario at a concrete not-admin destination and a
concrete successful destination. -/
theorem C7_not_admin_witness :
    processDest p0 st0 dNoAdmin
      = ⟨st0.success_count, st0.failed_count + 1,
         st0.failed_chats ++ [dNoAdmin.title ++ " (not admin)"],
         st0.queries ++ [dNoAdmin.chat_id], st0.dispatches⟩ ∧
    (broadcast_loop p0 [dNoAdmin, dOk]).success_count = 1 ∧
    (broadcast_loop p0 [dNoAdmin, dOk]).failed_count = 1 ∧
    (broadcast_loop p0 [dNoAdmin, dOk]).failed_chats
      = [dNoAdmin.title ++ " (not admin)"] :=
  C7_not_admin p0 st0 dNoAdmin dOk MemberStatus.member rfl
    (by decide) (by decide) rfl rfl

/-- Claim C8: a raised membership query and a raised dispatch are each
recorded as exactly one failure whose reason excerpt is capped at 30
characters, the run is not aborted by them, and the loop visits every
destination of the snapshot: the query trace equals the snapshot ids. -/
theorem C8_error_isolation (post : Post) (st : BroadcastState) (chats : List Dest)
    (d1 d2 : Dest) (e1 e2 : String) (s : MemberStatus)
    (h1 : d1.member = CallResult.raised e1)
    (h2m : d2.member = CallResult.ok s)
    (h2b : s = MemberStatus.administrator ∨ s = MemberStatus.creator)
    (h2e : d2.send = CallResult.raised e2) :
    processDest post st d1
      = ⟨st.success_count, st.failed_count + 1,
         st.failed_chats ++ [d1.title ++ " (" ++ strTake 30 e1 ++ ")"],
         st.queries ++ [d1.chat_id], st.dispatches⟩ ∧
    (processDest post st d2).failed_chats
      = st.failed_chats ++ [d2.title ++ " (" ++ strTake 30 e2 ++ ")"] ∧
    (processDest post st d2).success_count = st.success_count ∧
    (processDest post st d2).failed_count = st.failed_count + 1 ∧
    (strTake 30 e1).length ≤ 30 ∧
    (strTake 30 e2).length ≤ 30 ∧
    (broadcast_loop post chats).queries = chats.map Dest.chat_id := by
  have hb : (s == MemberStatus.administrator || s == MemberStatus.creator) = true := by
    rcases h2b with h | h <;> simp [h]
  have e := processDest_admin_send_raised_eq post st d2 s e2 h2m hb h2e
  refine ⟨processDest_member_raised_eq post st d1 e1 h1, ?_, ?_, ?_,
    strTake_length_le 30 e1, strTake_length_le 30 e2, ?_⟩
  · rw [e]; rfl
  · rw [e]
  · rw [e]
  · have hq := loop_queries_general post chats ⟨0, 0, [], [], []⟩
    simpa [broadcast_loop] using hq

/-- Claim C8 witness: the error isolation facts at concrete destinations with
a long raised message and a raised dispatch. -/
theorem C8_error_isolation_witness :
    processDest p0 st0 dErr
      = ⟨st0.success_count, st0.failed_count + 1,
         st0.failed_chats
           ++ [dErr.title ++ " ("
                ++ strTake 30 "Forbidden: bot was kicked from the group chat" ++ ")"],
         st0.queries ++ [dErr.chat_id], st0.dispatches⟩ ∧
    (processDest p0 st0 dSendErr).failed_chats
      = st0.failed_chats ++ [dSendErr.title ++ " (" ++ strTake 30 "Timed out" ++ ")"] ∧
    (processDest p0 st0 dSendErr).success_count = st0.success_count ∧
    (processDest p0 st0 dSendErr).failed_count = st0.failed_count + 1 ∧
    (strTake 30 "Forbidden: bot was kicked from the group chat").length ≤ 30 ∧
    (strTake 30 "Timed out").length ≤ 30 ∧
    (broadcast_loop p0 [dErr, dOk]).queries = List.map Dest.chat_id [dErr, dOk] :=
  C8_error_isolation p0 st0 [dErr, dOk] dErr dSendErr
    "Forbidden: bot was kicked from the group chat" "Timed out"
    MemberStatus.creator rfl rfl (Or.inr rfl) rfl

/-- Claim C9: with an empty registry snapshot the broadcast short-circuits:
the session ends, no membership query and no dispatch is performed, and the
outcome is the explicit no-destinations notice rather than a report. -/
theorem C9_empty_snapshot (post : Post) :
    confirm_send post []
      = { outcome := Outcome.noDestinations, user_data := some post,
          conv_state := END, queries := [], dispatches := [] } := rfl

/-- Claim C9 witness: the short-circuit at a concrete draft. -/
theorem C9_empty_snapshot_witness :
    confirm_send p0 []
      = { outcome := Outcome.noDestinations, user_data := some p0,
          conv_state := END, queries := [], dispatches := [] } :=
  C9_empty_snapshot p0

/-- Claim C10: a whitespace-only title input is accepted and stores the empty
string; the message composed from a draft with an empty title has no title
line (it is exactly the description part), and with no description and no
image an empty text body is dispatched via the text path. -/
theorem C10_empty_title (input : String) (post q r : Post) (d : Dest)
    (st : BroadcastState)
    (hws : input.data.all Char.isWhitespace = true)
    (hq : q.title = some "") (hqd : q.description = none) (hqi : q.image = none)
    (hr : r.title = some "")
    (hm : d.member = CallResult.ok MemberStatus.administrator)
    (hs : d.send = CallResult.ok ()) :
    handle_title input post = (ENTERING_DESCRIPTION, { post with title := some "" }) ∧
    build_message q = "" ∧
    processDest q st d
      = ⟨st.success_count + 1, st.failed_count, st.failed_chats,
         st.queries ++ [d.chat_id], st.dispatches ++ [⟨d.chat_id, false, ""⟩]⟩ ∧
    build_message r
      = (if pyTruthyStr r.description then r.description.getD "" else "") := by
  have hstrip : pyStrip input = "" := pyStrip_of_all_whitespace hws
  have hmsg : build_message q = "" := by
    simp [build_message, hq, hqd, pyTruthyStr]
  refine ⟨?_, hmsg, ?_, ?_⟩
  · simp [handle_title, hstrip]
  · have e := processDest_admin_send_ok_eq q st d MemberStatus.administrator hm
      (by decide) hs
    rw [e, hmsg, hqi]
    rfl
  · simp [build_message, hr, pyTruthyStr]

/-- Claim C10 witness: a three-space title input on a concrete draft, and a
concrete empty-title draft broadcast to a concrete eligible destination. -/
theorem C10_empty_title_witness :
    handle_title "   " p0 = (ENTERING_DESCRIPTION, { p0 with title := some "" }) ∧
    build_message pEmptyTitle = "" ∧
    processDest pEmptyTitle st0 dOk
      = ⟨st0.success_count + 1, st0.failed_count, st0.failed_chats,
         st0.queries ++ [dOk.chat_id], st0.dispatches ++ [⟨dOk.chat_id, false, ""⟩]⟩ ∧
    build_message pDescTitle
      = (if pyTruthyStr pDescTitle.description then pDescTitle.description.getD ""
         else "") :=
  C10_empty_title "   " p0 pEmptyTitle pDescTitle dOk st0
    (by decide) rfl rfl rfl rfl rfl rfl

end Cybot
